import Mathlib

/-!
Shallow embedding of the failover reverse-proxy route
`src/frontend/src/app/api/proxy/[...path]/route.ts` from the
the-third-voice-mvp repository, together with proofs about the health-check
state machine, the retry loop, header filtering, body handling, response
relaying and the diagnostics endpoint.

Modelling conventions:
 - JavaScript timestamps (milliseconds from `Date.now()`) are `Nat`.
   The cache test `now - lastChecked < HEALTH_CHECK_INTERVAL` agrees with
   the JavaScript semantics on `Nat` because a negative difference in
   JavaScript and a truncated-to-zero difference on `Nat` both satisfy the
   comparison.
 - The outcome of each `fetch` is an explicit environment value: either a
   resolved response or a thrown network error (which also covers the
   timeout abort).  A code path that never consults the outcome models a
   path that makes no network call.
 - JavaScript exceptions are `Except` values; a `try/catch` is a `match`
   on that value.
 - The `Headers` object normalises header names to lower case and `set`
   replaces any existing entry; `hset`/`hget` model exactly that.
-/

namespace TTV

/-! ## Configuration constants (route.ts lines 7-20) -/

def PRIMARY : String := "https://api.thethirdvoice.ai"

def SECONDARY : String := "https://the-third-voice-mvp.onrender.com"

def HEALTH_CHECK_INTERVAL : Nat := 30 * 1000

def REQUEST_TIMEOUT : Nat := 30 * 1000

def HEALTH_CHECK_TIMEOUT : Nat := 5 * 1000

def MAX_RETRIES : Nat := 2

def BLOCKED_HEADERS : List String :=
  ["host", "connection", "keep-alive", "proxy-authenticate",
   "proxy-authorization", "te", "trailer", "upgrade"]

/-! ## Shared in-memory health state (route.ts lines 22-26) -/

structure HealthState where
  isPrimaryHealthy : Bool
  lastChecked : Nat
  backendSince : Nat
  consecutiveFailures : Nat
deriving Repr, DecidableEq

/-- The module-level initial state: `isPrimaryHealthy = true`,
`lastChecked = 0`, `backendSince = Date.now()` at module load (a
parameter), `consecutiveFailures = 0`. -/
def initialState (loadTime : Nat) : HealthState :=
  { isPrimaryHealthy := true
    lastChecked := 0
    backendSince := loadTime
    consecutiveFailures := 0 }

/-- Outcome of the health-check `fetch`: either a resolved response
(with its `ok` flag and status code) or a thrown error (network failure
or timeout abort). -/
inductive HealthFetchOutcome where
  | success (ok : Bool) (status : Nat)
  | failure (msg : String)
deriving Repr, DecidableEq

/-- `checkPrimaryHealth` (route.ts lines 46-103).  Arguments: whether
`req.url` contains the substring `simulateDown=true`, the current time
`now = Date.now()`, the environment-provided outcome of the health fetch
(consulted only when a real check happens), and the shared state.
Returns the boolean result together with the updated state. -/
def checkPrimaryHealth (simulateDown : Bool) (now : Nat)
    (outcome : HealthFetchOutcome) (s : HealthState) : Bool × HealthState :=
  if simulateDown then
    let s1 :=
      if s.isPrimaryHealthy then
        { s with isPrimaryHealthy := false, backendSince := now,
                 consecutiveFailures := 1 }
      else s
    let s2 := { s1 with lastChecked := now }
    (s2.isPrimaryHealthy, s2)
  else if now - s.lastChecked < HEALTH_CHECK_INTERVAL then
    (s.isPrimaryHealthy, s)
  else
    let s1 := { s with lastChecked := now }
    match outcome with
    | .success ok status =>
      let newStatus := ok && decide (status < 400)
      let s2 :=
        if newStatus ≠ s1.isPrimaryHealthy then
          { s1 with backendSince := now,
                    consecutiveFailures :=
                      if newStatus then 0 else s1.consecutiveFailures + 1 }
        else s1
      let s3 := { s2 with isPrimaryHealthy := newStatus }
      let s4 := if newStatus then { s3 with consecutiveFailures := 0 } else s3
      (s4.isPrimaryHealthy, s4)
    | .failure _ =>
      let s2 := { s1 with consecutiveFailures := s1.consecutiveFailures + 1 }
      let s3 :=
        if s2.isPrimaryHealthy then { s2 with backendSince := now } else s2
      let s4 := { s3 with isPrimaryHealthy := false }
      (s4.isPrimaryHealthy, s4)

/-! ## Header model

The `Headers` web API normalises names to lower case and `set` replaces
any existing entry with the same (case-insensitive) name. -/

/-- JavaScript `toLowerCase()` (character-wise lowering; identical on
the ASCII header names and content types the route manipulates). -/
def jsToLowerCase (s : String) : String := String.mk (s.data.map Char.toLower)

/-- Case-insensitive normalisation of a header name, as `Headers` does. -/
def hkey (k : String) : String := jsToLowerCase k

/-- `headers.set(k, v)`: replace the entry with the normalised name,
or append it. -/
def hset (l : List (String × String)) (k v : String) :
    List (String × String) :=
  if l.any (fun p => p.1 = hkey k) then
    l.map (fun p => if p.1 = hkey k then (hkey k, v) else p)
  else l ++ [(hkey k, v)]

/-- `headers.get(k)`: the value stored under the normalised name. -/
def hget (l : List (String × String)) (k : String) : Option String :=
  (l.find? (fun p => p.1 = hkey k)).map (fun p => p.2)

/-- Is `pat` a contiguous sublist of the second argument? -/
def infixListOf (pat : List Char) : List Char → Bool
  | [] => pat.isPrefixOf []
  | c :: cs => pat.isPrefixOf (c :: cs) || infixListOf pat cs

/-- JavaScript `String.prototype.includes`: substring containment. -/
def strIncludes (s pat : String) : Bool := infixListOf pat.data s.data

/-- `createForwardHeaders` (route.ts lines 108-122): copy every inbound
header whose lower-cased name is not in `BLOCKED_HEADERS`, then always
set the proxy `User-Agent`. -/
def createForwardHeaders (originalHeaders : List (String × String)) :
    List (String × String) :=
  let headers := originalHeaders.foldl
    (fun acc p =>
      if BLOCKED_HEADERS.contains (jsToLowerCase p.1) then acc
      else hset acc p.1 p.2)
    []
  hset headers "User-Agent" "NextJS-Proxy"

/-! ## Requests, upstream responses and proxy responses -/

/-- An inbound request as the route sees it.  `jsonBody` is the result of
`req.json()` followed by `JSON.stringify`: either the re-serialised JSON
text or the thrown parse error.  `simulateDownInUrl` says whether
`req.url` contains the substring `simulateDown=true`. -/
structure InboundRequest where
  simulateDownInUrl : Bool
  path : List String
  query : List (String × String)
  headers : List (String × String)
  jsonBody : Except String String
  textBody : String
  rawBody : List Nat
deriving Repr

/-- An upstream `Response`.  `jsonBody` is the result of
`response.json()` when attempted (value re-serialised, or the thrown
parse error); `textBody` and `rawBody` are what `response.text()` and
`response.arrayBuffer()` would yield. -/
structure UpResponse where
  status : Nat
  headers : List (String × String)
  jsonBody : Except String String
  textBody : String
  rawBody : List Nat
deriving Repr

/-- Outcome of one forwarding `fetch` attempt: a resolved response or a
thrown network/timeout error. -/
inductive AttemptOutcome where
  | resp (r : UpResponse)
  | err (msg : String)
deriving Repr

/-- Outbound request body produced by `handleRequestBody`. -/
inductive OutBody where
  | json (s : String)
  | text (s : String)
  | bytes (b : List Nat)
deriving Repr, DecidableEq

/-- The structured error payload built in the `catch` of `handleRequest`
(route.ts lines 331-338).  Its fields are exactly the fields of the
`errorDetails` object literal; note there is no URL field. -/
structure ErrorDetails where
  error : String
  message : String
  method : String
  timestamp : Nat
  backend : String
  consecutiveFailures : Nat
deriving Repr, DecidableEq

/-- The body of the diagnostics JSON returned by `GET /status`
(route.ts lines 371-384). -/
structure StatusBody where
  status : String
  primaryHealthy : Bool
  currentBackend : String
  backendUrl : String
  lastHealthCheck : Nat
  backendSince : Nat
  uptimeDays : Nat
  uptimeHours : Nat
  uptimeMinutes : Nat
  uptimeSeconds : Nat
  consecutiveFailures : Nat
  checkIntervalSeconds : Nat
  requestTimeoutSeconds : Nat
  maxRetries : Nat
  timestamp : Nat
deriving Repr, DecidableEq

/-- The body of a `NextResponse` produced by the route. -/
inductive RespBody where
  | json (s : String)
  | text (s : String)
  | binary (b : List Nat)
  | errJson (d : ErrorDetails)
  | statusJson (b : StatusBody)
deriving Repr

/-- A `NextResponse` as returned to the caller. -/
structure ProxyResponse where
  status : Nat
  headers : List (String × String)
  body : RespBody
deriving Repr

/-! ## Body handling (route.ts lines 127-158) -/

/-- `handleRequestBody`: for POST/PUT/PATCH, read the body according to
its declared content type; a JSON parse failure is caught and rethrown
as `Invalid request body: ...` (modelled as `Except.error`).  Returns
the optional outbound body together with the updated outbound headers
(the function mutates the headers it is given). -/
def handleRequestBody (req : InboundRequest) (method : String)
    (headers : List (String × String)) :
    Except String (Option OutBody × List (String × String)) :=
  if ¬ (["POST", "PUT", "PATCH"].contains method) then
    .ok (none, headers)
  else
    let contentType :=
      jsToLowerCase ((hget req.headers "content-type").getD "")
    if strIncludes contentType "application/json" then
      match req.jsonBody with
      | .ok jsonData =>
        .ok (some (.json jsonData),
             hset headers "Content-Type" "application/json")
      | .error e => .error ("Invalid request body: " ++ e)
    else if strIncludes contentType "text/" then
      .ok (some (.text req.textBody), hset headers "Content-Type" contentType)
    else if strIncludes contentType "multipart/form-data" ||
        strIncludes contentType "application/x-www-form-urlencoded" then
      .ok (some (.bytes req.rawBody),
           if contentType ≠ "" then hset headers "Content-Type" contentType
           else headers)
    else
      .ok (some (.bytes req.rawBody),
           if contentType ≠ "" then hset headers "Content-Type" contentType
           else headers)

/-! ## Retry loop (route.ts lines 163-207) -/

/-- Body of the `for (attempt = 0; attempt <= retries; attempt++)` loop
of `makeRequestWithRetries`, one constructor-recursion step per
iteration (the fuel starts at `retries + 1`, enough for every
iteration).  Returns the result (`Except` models a thrown error) paired
with the number of `fetch` attempts actually issued. -/
def retryLoop (outcomes : Nat → AttemptOutcome) (retries : Nat) :
    Nat → Option String → Nat → Except String UpResponse × Nat
  | attempt, lastError, 0 =>
    (.error ((lastError).getD "Max retries exceeded"), attempt)
  | attempt, lastError, fuel + 1 =>
    if attempt ≤ retries then
      match outcomes attempt with
      | .resp r =>
        if r.status < 500 then (.ok r, attempt + 1)
        else if attempt < retries then
          retryLoop outcomes retries (attempt + 1) lastError fuel
        else (.ok r, attempt + 1)
      | .err msg =>
        if attempt < retries then
          retryLoop outcomes retries (attempt + 1) (some msg) fuel
        else (.error msg, attempt + 1)
    else (.error ((lastError).getD "Max retries exceeded"), attempt)

/-- `makeRequestWithRetries` with the default `retries = MAX_RETRIES`
argument explicit; the environment function `outcomes` gives the result
of the fetch at each attempt index. -/
def makeRequestWithRetries (outcomes : Nat → AttemptOutcome)
    (retries : Nat) : Except String UpResponse × Nat :=
  retryLoop outcomes retries 0 none (retries + 1)

/-! ## Target URL (route.ts lines 212-236) -/

/-- Serialise query parameters (only the shape matters for the claims). -/
def queryString (q : List (String × String)) : String :=
  match q with
  | [] => ""
  | _ => "?" ++ String.intercalate "&"
      (q.map (fun p => p.1 ++ "=" ++ p.2))

/-- Drop trailing slash characters, as `replace(/\/+$/, '')` does. -/
def stripTrailingSlashes (s : String) : String :=
  String.mk ((s.toList.reverse.dropWhile (fun c => c = '/')).reverse)

/-- `buildTargetUrl`: join the path segments, strip trailing slashes,
special-case a leading `docs` segment, and copy every query parameter
except `simulateDown`. -/
def buildTargetUrl (baseUrl : String) (path : List String)
    (query : List (String × String)) : String :=
  let targetPath0 := stripTrailingSlashes (String.intercalate "/" path)
  let targetPath := if path.head? = some "docs" then "docs" else targetPath0
  baseUrl ++ "/" ++ targetPath ++
    queryString (query.filter (fun p => ¬ (["simulateDown"].contains p.1)))

/-! ## Response relaying (route.ts lines 241-290) -/

/-- The four CORS headers set on every relayed response
(route.ts lines 250-253). -/
def setCorsHeaders (h : List (String × String)) : List (String × String) :=
  hset (hset (hset (hset h
    "Access-Control-Allow-Origin" "*")
    "Access-Control-Allow-Methods" "GET, POST, PUT, DELETE, PATCH, OPTIONS")
    "Access-Control-Allow-Headers" "Content-Type, Authorization, X-Requested-With")
    "Access-Control-Expose-Headers" "Content-Type, Content-Length"

/-- `handleResponse`: copy the upstream headers, add the CORS headers,
and frame the body as JSON / text / binary from the upstream
content-type; a JSON parse failure falls back to the raw bytes. -/
def handleResponse (response : UpResponse) : ProxyResponse :=
  let responseHeaders := setCorsHeaders
    (response.headers.foldl (fun acc p => hset acc p.1 p.2) [])
  let contentType :=
    jsToLowerCase ((hget response.headers "content-type").getD "")
  if strIncludes contentType "application/json" then
    match response.jsonBody with
    | .ok jsonData =>
      { status := response.status, headers := responseHeaders,
        body := .json jsonData }
    | .error _ =>
      { status := response.status, headers := responseHeaders,
        body := .binary response.rawBody }
  else if strIncludes contentType "text/" then
    { status := response.status, headers := responseHeaders,
      body := .text response.textBody }
  else
    { status := response.status, headers := responseHeaders,
      body := .binary response.rawBody }

/-! ## Core proxy logic (route.ts lines 295-350) -/

/-- The response built in the `catch` of `handleRequest`: HTTP 500, the
`errorDetails` JSON body, and exactly the two headers of the literal.
`s` is the shared state at the time of the catch. -/
def errorResponse (message method : String) (now : Nat)
    (s : HealthState) : ProxyResponse :=
  { status := 500
    headers := hset (hset []
      "Access-Control-Allow-Origin" "*") "Content-Type" "application/json"
    body := .errJson
      { error := "Proxy request failed"
        message := message
        method := method
        timestamp := now
        backend := if s.isPrimaryHealthy then "Primary" else "Secondary"
        consecutiveFailures := s.consecutiveFailures } }

/-- The per-request environment: the current time and the outcomes the
network would produce for the health fetch and for each forwarding
attempt. -/
structure ProxyEnv where
  now : Nat
  healthOutcome : HealthFetchOutcome
  attemptOutcome : Nat → AttemptOutcome

/-- Everything observable about one `handleRequest` run: the response,
how many forwarding fetches were issued, which base URL was chosen, and
the shared state afterwards. -/
structure HandleResult where
  response : ProxyResponse
  attempts : Nat
  usedPrimary : Bool
  state : HealthState

/-- `handleRequest` (route.ts lines 295-350): health check, backend
selection, header and body construction, retried forwarding, response
relay; every thrown error is caught and converted to `errorResponse`. -/
def handleRequest (req : InboundRequest) (method : String)
    (env : ProxyEnv) (s : HealthState) : HandleResult :=
  let checked := checkPrimaryHealth req.simulateDownInUrl env.now
    env.healthOutcome s
  let usePrimary := checked.1
  let s1 := checked.2
  let baseUrl := if usePrimary then PRIMARY else SECONDARY
  let _url := buildTargetUrl baseUrl req.path req.query
  let headers := createForwardHeaders req.headers
  match handleRequestBody req method headers with
  | .error e =>
    { response := errorResponse e method env.now s1
      attempts := 0
      usedPrimary := usePrimary
      state := s1 }
  | .ok _bodyAndHeaders =>
    match makeRequestWithRetries env.attemptOutcome MAX_RETRIES with
    | (.ok response, n) =>
      { response := handleResponse response
        attempts := n
        usedPrimary := usePrimary
        state := s1 }
    | (.error msg, n) =>
      { response := errorResponse msg method env.now s1
        attempts := n
        usedPrimary := usePrimary
        state := s1 }

/-! ## GET handler and the status endpoint (route.ts lines 353-395) -/

/-- The diagnostics response of `GET /status`: `NextResponse.json` is
called with the body only, so the headers are just the implicit
`content-type` that `NextResponse.json` adds. -/
def statusResponse (s : HealthState) (now : Nat) : ProxyResponse :=
  let uptimeMs := now - s.backendSince
  { status := 200
    headers := [("content-type", "application/json")]
    body := .statusJson
      { status := "healthy"
        primaryHealthy := s.isPrimaryHealthy
        currentBackend :=
          if s.isPrimaryHealthy then "Pi Server (Primary)"
          else "Render (Secondary)"
        backendUrl := if s.isPrimaryHealthy then PRIMARY else SECONDARY
        lastHealthCheck := s.lastChecked
        backendSince := s.backendSince
        uptimeDays := uptimeMs / (1000 * 60 * 60 * 24)
        uptimeHours := (uptimeMs / (1000 * 60 * 60)) % 24
        uptimeMinutes := (uptimeMs / (1000 * 60)) % 60
        uptimeSeconds := (uptimeMs / 1000) % 60
        consecutiveFailures := s.consecutiveFailures
        checkIntervalSeconds := HEALTH_CHECK_INTERVAL / 1000
        requestTimeoutSeconds := REQUEST_TIMEOUT / 1000
        maxRetries := MAX_RETRIES
        timestamp := now } }

/-- The exported `GET` handler: the `/status` diagnostics shortcut,
otherwise `handleRequest` with method `GET`. -/
def GET (req : InboundRequest) (env : ProxyEnv) (s : HealthState) :
    HandleResult :=
  if req.path.length = 1 ∧ req.path.head? = some "status" then
    { response := statusResponse s env.now
      attempts := 0
      usedPrimary := s.isPrimaryHealthy
      state := s }
  else
    handleRequest req "GET" env s

/-! ## Sequences of health checks and reachable states -/

/-- Run a sequence of health-check executions without the
`simulateDown` override, one `(now, fetch outcome)` pair per call;
collect the returned booleans and the final state. -/
def runChecks (s : HealthState) :
    List (Nat × HealthFetchOutcome) → List Bool × HealthState
  | [] => ([], s)
  | c :: cs =>
    let r := checkPrimaryHealth false c.1 c.2 s
    let rest := runChecks r.2 cs
    (r.1 :: rest.1, rest.2)

/-- States reachable from the module-level initial state through any
sequence of health-check executions (cached reads, `simulateDown`
overrides, successful checks, failed checks and network errors). -/
inductive Reachable : HealthState → Prop where
  | init (loadTime : Nat) : Reachable (initialState loadTime)
  | step (sd : Bool) (now : Nat) (oc : HealthFetchOutcome)
      (s : HealthState) : Reachable s →
      Reachable (checkPrimaryHealth sd now oc s).2

/-! ## Concrete fixtures used by witnesses and counterexamples -/

/-- A plain GET request to a forwarded path. -/
def reqPlainGet : InboundRequest :=
  { simulateDownInUrl := false, path := ["api", "messages"], query := [],
    headers := [], jsonBody := .ok "", textBody := "", rawBody := [] }

/-- A POST request declaring a JSON body that fails to parse. -/
def reqBadJson : InboundRequest :=
  { simulateDownInUrl := false, path := ["api", "messages"], query := [],
    headers := [("content-type", "application/json")],
    jsonBody := .error "Unexpected token", textBody := "", rawBody := [] }

/-- A request carrying `simulateDown=true` in its URL. -/
def reqSimDown : InboundRequest :=
  { simulateDownInUrl := true, path := ["api", "messages"], query := [],
    headers := [], jsonBody := .ok "", textBody := "", rawBody := [] }

/-- A GET request for the diagnostics path `/status`. -/
def reqStatusPath : InboundRequest :=
  { simulateDownInUrl := false, path := ["status"], query := [],
    headers := [], jsonBody := .ok "", textBody := "", rawBody := [] }

/-- An upstream 503 response. -/
def resp503 : UpResponse :=
  { status := 503, headers := [], jsonBody := .error "parse", textBody := "",
    rawBody := [] }

/-- An environment whose upstream returns 503 on every attempt and whose
primary health endpoint answers 200. -/
def envAlways503 : ProxyEnv :=
  { now := 0, healthOutcome := .success true 200,
    attemptOutcome := fun _ => .resp resp503 }

/-! ## Helper lemmas about the header model -/

theorem find?_replace_hit (t : List (String × String)) (k v : String)
    (h : t.any (fun p => p.1 = k) = true) :
    (t.map (fun p => if p.1 = k then (k, v) else p)).find?
      (fun p => p.1 = k) = some (k, v) := by
  induction t with
  | nil => simp at h
  | cons p t ih =>
    by_cases hp : p.1 = k
    · simp [List.find?, hp]
    · simp only [List.any_cons, Bool.or_eq_true, decide_eq_true_eq] at h
      rcases h with h | h
      · exact absurd h hp
      · simp only [List.map_cons, if_neg hp]
        rw [List.find?_cons_of_neg, ih h]
        simp [hp]

theorem find?_replace_miss (t : List (String × String)) (k v q : String)
    (h : q ≠ k) :
    (t.map (fun p => if p.1 = k then (k, v) else p)).find?
      (fun p => p.1 = q) = t.find? (fun p => p.1 = q) := by
  induction t with
  | nil => simp
  | cons p t ih =>
    simp only [List.map_cons]
    by_cases hp : p.1 = k
    · rw [if_pos hp]
      rw [List.find?_cons_of_neg, List.find?_cons_of_neg, ih]
      · simp [hp, Ne.symm h]
      · simp [Ne.symm h]
    · rw [if_neg hp]
      by_cases hq : p.1 = q
      · rw [List.find?_cons_of_pos, List.find?_cons_of_pos] <;> simp [hq]
      · rw [List.find?_cons_of_neg, List.find?_cons_of_neg, ih] <;> simp [hq]

/-- `hget` after `hset`: the written key reads back the new value, any
other key is untouched. -/
theorem hget_hset (l : List (String × String)) (k v k' : String) :
    hget (hset l k v) k' =
      if hkey k' = hkey k then some v else hget l k' := by
  by_cases hany : l.any (fun p => p.1 = hkey k) = true
  · have hs : hset l k v =
        l.map (fun p => if p.1 = hkey k then (hkey k, v) else p) := by
      unfold hset; rw [if_pos hany]
    rw [hs]
    unfold hget
    by_cases heq : hkey k' = hkey k
    · rw [heq, find?_replace_hit l (hkey k) v hany]
      simp [heq]
    · rw [find?_replace_miss l (hkey k) v (hkey k') heq]
      simp [heq]
  · have hs : hset l k v = l ++ [(hkey k, v)] := by
      unfold hset; rw [if_neg hany]
    rw [hs]
    unfold hget
    rw [List.find?_append]
    by_cases heq : hkey k' = hkey k
    · have hnone : l.find? (fun p => decide (p.1 = hkey k')) = none := by
        rw [List.find?_eq_none]
        intro p hp
        simp only [decide_eq_true_eq]
        intro hk
        exact hany (List.any_eq_true.mpr ⟨p, hp, by simp [hk, heq]⟩)
      rw [hnone]
      simp [List.find?, heq, if_pos heq]
    · have hnone :
          ([(hkey k, v)]).find? (fun p => decide (p.1 = hkey k')) = none := by
        have hne : hkey k ≠ hkey k' := Ne.symm heq
        simp [List.find?, hne]
      rw [hnone]
      simp [heq]

theorem hget_hset_self (l : List (String × String)) (k v : String) :
    hget (hset l k v) k = some v := by
  rw [hget_hset, if_pos rfl]

theorem hget_hset_ne (l : List (String × String)) (k v k' : String)
    (h : hkey k' ≠ hkey k) : hget (hset l k v) k' = hget l k' := by
  rw [hget_hset, if_neg h]

/-! ## Projection lemmas for the health-check state machine -/


theorem checkPrimaryHealth_isHealthy (sd : Bool) (now : Nat)
    (oc : HealthFetchOutcome) (s : HealthState) :
    ((checkPrimaryHealth sd now oc s).2).isPrimaryHealthy =
      if sd then false
      else if now - s.lastChecked < HEALTH_CHECK_INTERVAL then
        s.isPrimaryHealthy
      else
        match oc with
        | .success ok status => ok && decide (status < 400)
        | .failure _ => false := by
  cases sd with
  | false =>
    by_cases hc : now - s.lastChecked < HEALTH_CHECK_INTERVAL
    · simp [checkPrimaryHealth, hc]
    · cases oc with
      | success ok status =>
        simp only [checkPrimaryHealth, Bool.false_eq_true, if_false, hc]
        split_ifs <;> simp_all
      | failure m => simp [checkPrimaryHealth, hc]
  | true =>
    by_cases hh : s.isPrimaryHealthy <;> simp [checkPrimaryHealth, hh]

theorem checkPrimaryHealth_fst (sd : Bool) (now : Nat)
    (oc : HealthFetchOutcome) (s : HealthState) :
    (checkPrimaryHealth sd now oc s).1 =
      ((checkPrimaryHealth sd now oc s).2).isPrimaryHealthy := by
  cases sd with
  | false =>
    by_cases hc : now - s.lastChecked < HEALTH_CHECK_INTERVAL
    · simp [checkPrimaryHealth, hc]
    · cases oc with
      | success ok status =>
        simp only [checkPrimaryHealth, Bool.false_eq_true, if_false, hc]
      | failure m => simp [checkPrimaryHealth, hc]
  | true =>
    by_cases hh : s.isPrimaryHealthy <;> simp [checkPrimaryHealth, hh]

theorem checkPrimaryHealth_backendSince (sd : Bool) (now : Nat)
    (oc : HealthFetchOutcome) (s : HealthState) :
    ((checkPrimaryHealth sd now oc s).2).backendSince =
      if ((checkPrimaryHealth sd now oc s).2).isPrimaryHealthy
          = s.isPrimaryHealthy then s.backendSince else now := by
  cases sd with
  | false =>
    by_cases hc : now - s.lastChecked < HEALTH_CHECK_INTERVAL
    · simp [checkPrimaryHealth, hc]
    · cases oc with
      | success ok status =>
        simp only [checkPrimaryHealth, Bool.false_eq_true, if_false, hc]
        split_ifs <;> simp_all
      | failure m =>
        simp only [checkPrimaryHealth, Bool.false_eq_true, if_false, hc]
        by_cases hh : s.isPrimaryHealthy <;> simp_all
  | true =>
    by_cases hh : s.isPrimaryHealthy <;> simp [checkPrimaryHealth, hh]

theorem checkPrimaryHealth_cf (sd : Bool) (now : Nat)
    (oc : HealthFetchOutcome) (s : HealthState) :
    ((checkPrimaryHealth sd now oc s).2).consecutiveFailures =
      if sd then
        (if s.isPrimaryHealthy then 1 else s.consecutiveFailures)
      else if now - s.lastChecked < HEALTH_CHECK_INTERVAL then
        s.consecutiveFailures
      else
        match oc with
        | .success ok status =>
          if (ok && decide (status < 400)) then 0
          else if s.isPrimaryHealthy then s.consecutiveFailures + 1
          else s.consecutiveFailures
        | .failure _ => s.consecutiveFailures + 1 := by
  cases sd with
  | false =>
    by_cases hc : now - s.lastChecked < HEALTH_CHECK_INTERVAL
    · simp [checkPrimaryHealth, hc]
    · cases oc with
      | success ok status =>
        simp only [checkPrimaryHealth, Bool.false_eq_true, if_false, hc]
        split_ifs <;> simp_all
      | failure m =>
        simp only [checkPrimaryHealth, Bool.false_eq_true, if_false, hc]
        split_ifs <;> rfl
  | true =>
    by_cases hh : s.isPrimaryHealthy <;> simp [checkPrimaryHealth, hh]

theorem checkPrimaryHealth_cached (now : Nat) (oc : HealthFetchOutcome)
    (s : HealthState) (h : now - s.lastChecked < HEALTH_CHECK_INTERVAL) :
    checkPrimaryHealth false now oc s = (s.isPrimaryHealthy, s) := by
  simp [checkPrimaryHealth, h]

/-! ## Projection lemmas for `handleRequest` -/

theorem handleRequest_usedPrimary (req : InboundRequest) (method : String)
    (env : ProxyEnv) (s : HealthState) :
    (handleRequest req method env s).usedPrimary =
      (checkPrimaryHealth req.simulateDownInUrl env.now
        env.healthOutcome s).1 := by
  unfold handleRequest
  rcases hb : handleRequestBody req method (createForwardHeaders req.headers)
    with e | v
  · simp [hb]
  · rcases hr : makeRequestWithRetries env.attemptOutcome MAX_RETRIES
      with ⟨res, n⟩
    cases res <;> simp [hb, hr]

theorem handleRequest_state (req : InboundRequest) (method : String)
    (env : ProxyEnv) (s : HealthState) :
    (handleRequest req method env s).state =
      (checkPrimaryHealth req.simulateDownInUrl env.now
        env.healthOutcome s).2 := by
  unfold handleRequest
  rcases hb : handleRequestBody req method (createForwardHeaders req.headers)
    with e | v
  · simp [hb]
  · rcases hr : makeRequestWithRetries env.attemptOutcome MAX_RETRIES
      with ⟨res, n⟩
    cases res <;> simp [hb, hr]

/-! ## Helper lemmas: retry loop, body handling, response relaying -/

theorem retryLoop_step (outcomes : Nat → AttemptOutcome) (retries : Nat)
    (attempt : Nat) (lastError : Option String) (fuel : Nat)
    (h1 : attempt ≤ retries) (r : UpResponse)
    (hr : outcomes attempt = .resp r) (hs : ¬ r.status < 500)
    (h2 : attempt < retries) :
    retryLoop outcomes retries attempt lastError (fuel + 1) =
      retryLoop outcomes retries (attempt + 1) lastError fuel := by
  rw [retryLoop, if_pos h1, hr]
  dsimp only
  rw [if_neg hs, if_pos h2]

theorem retryLoop_last (outcomes : Nat → AttemptOutcome) (retries : Nat)
    (attempt : Nat) (lastError : Option String) (fuel : Nat)
    (h1 : attempt ≤ retries) (r : UpResponse)
    (hr : outcomes attempt = .resp r) (hs : ¬ r.status < 500)
    (h2 : ¬ attempt < retries) :
    retryLoop outcomes retries attempt lastError (fuel + 1) =
      (.ok r, attempt + 1) := by
  rw [retryLoop, if_pos h1, hr]
  dsimp only
  rw [if_neg hs, if_neg h2]

/-- When the upstream answers every attempt with the same 5xx response,
the retry loop runs all `MAX_RETRIES + 1 = 3` attempts and then returns
that response (it does not throw). -/
theorem retry_always_5xx (outcomes : Nat → AttemptOutcome) (r : UpResponse)
    (hout : ∀ n, outcomes n = .resp r) (hs : 500 ≤ r.status) :
    makeRequestWithRetries outcomes MAX_RETRIES = (.ok r, 3) := by
  have hns : ¬ (r.status < 500) := Nat.not_lt.mpr hs
  show retryLoop outcomes MAX_RETRIES 0 none (MAX_RETRIES + 1) = (.ok r, 3)
  rw [show MAX_RETRIES + 1 = 2 + 1 from rfl]
  rw [retryLoop_step outcomes MAX_RETRIES 0 none 2 (by decide) r (hout 0)
    hns (by decide)]
  rw [show (2 : Nat) = 1 + 1 from rfl]
  rw [retryLoop_step outcomes MAX_RETRIES (0 + 1) none 1 (by decide) r
    (hout (0 + 1)) hns (by decide)]
  rw [show (1 : Nat) = 0 + 1 from rfl]
  rw [retryLoop_last outcomes MAX_RETRIES (0 + 1 + 1) none 0 (by decide) r
    (hout (0 + 1 + 1)) hns (by decide)]

theorem handleRequestBody_get (req : InboundRequest)
    (headers : List (String × String)) :
    handleRequestBody req "GET" headers = .ok (none, headers) := rfl

theorem handleResponse_status (r : UpResponse) :
    (handleResponse r).status = r.status := by
  unfold handleResponse
  dsimp only
  by_cases h1 : strIncludes
      (jsToLowerCase ((hget r.headers "content-type").getD ""))
      "application/json" = true
  · rw [if_pos h1]
    cases hr : r.jsonBody <;> rfl
  · rw [if_neg h1]
    by_cases h2 : strIncludes
        (jsToLowerCase ((hget r.headers "content-type").getD ""))
        "text/" = true
    · rw [if_pos h2]
    · rw [if_neg h2]

/-- Every `handleRequest` run produces one of exactly two responses: the
relay of the response the retry loop returned, or the structured error
payload built from the post-health-check state. -/
theorem handleRequest_shapes (req : InboundRequest) (method : String)
    (env : ProxyEnv) (s : HealthState) :
    (∃ r, (makeRequestWithRetries env.attemptOutcome MAX_RETRIES).1 = .ok r ∧
      (handleRequest req method env s).response = handleResponse r) ∨
    (∃ msg, (handleRequest req method env s).response =
      errorResponse msg method env.now
        (checkPrimaryHealth req.simulateDownInUrl env.now
          env.healthOutcome s).2) := by
  unfold handleRequest
  rcases hb : handleRequestBody req method (createForwardHeaders req.headers)
    with e | v
  · right
    exact ⟨e, by simp [hb]⟩
  · rcases hr : makeRequestWithRetries env.attemptOutcome MAX_RETRIES
      with ⟨res, n⟩
    cases res with
    | ok r =>
      left
      exact ⟨r, rfl, by simp [hb, hr]⟩
    | error msg =>
      right
      exact ⟨msg, by simp [hb, hr]⟩

theorem errorResponse_acao (msg method : String) (now : Nat)
    (s : HealthState) :
    hget (errorResponse msg method now s).headers
      "Access-Control-Allow-Origin" = some "*" := by
  unfold errorResponse
  rw [hget_hset_ne _ _ _ _ (by decide), hget_hset_self]

theorem setCorsHeaders_acao (h : List (String × String)) :
    hget (setCorsHeaders h) "Access-Control-Allow-Origin" = some "*" := by
  unfold setCorsHeaders
  rw [hget_hset_ne _ _ _ _ (by decide), hget_hset_ne _ _ _ _ (by decide),
    hget_hset_ne _ _ _ _ (by decide), hget_hset_self]

theorem handleResponse_acao (r : UpResponse) :
    hget (handleResponse r).headers "Access-Control-Allow-Origin"
      = some "*" := by
  unfold handleResponse
  dsimp only
  by_cases h1 : strIncludes
      (jsToLowerCase ((hget r.headers "content-type").getD ""))
      "application/json" = true
  · rw [if_pos h1]
    cases hr : r.jsonBody <;> exact setCorsHeaders_acao _
  · rw [if_neg h1]
    by_cases h2 : strIncludes
        (jsToLowerCase ((hget r.headers "content-type").getD ""))
        "text/" = true
    · rw [if_pos h2]
      exact setCorsHeaders_acao _
    · rw [if_neg h2]
      exact setCorsHeaders_acao _

theorem handleRequest_acao (req : InboundRequest) (method : String)
    (env : ProxyEnv) (s : HealthState) :
    hget ((handleRequest req method env s).response).headers
      "Access-Control-Allow-Origin" = some "*" := by
  rcases handleRequest_shapes req method env s with
    ⟨r, _, hresp⟩ | ⟨msg, hresp⟩
  · rw [hresp]; exact handleResponse_acao r
  · rw [hresp]; exact errorResponse_acao _ _ _ _

/-! ## Helper lemmas: header filtering -/

theorem hset_fresh (acc : List (String × String)) (k v : String)
    (h : ∀ q ∈ acc, q.1 ≠ hkey k) : hset acc k v = acc ++ [(hkey k, v)] := by
  unfold hset
  rw [if_neg]
  intro hany
  rcases List.any_eq_true.mp hany with ⟨q, hq, hq2⟩
  exact h q hq (by simpa using hq2)

theorem find?_filter_not_blocked (l : List (String × String)) (k : String)
    (hk : BLOCKED_HEADERS.contains (hkey k) = false) :
    (l.filter (fun p => !(BLOCKED_HEADERS.contains p.1))).find?
      (fun p => p.1 = hkey k) = l.find? (fun p => p.1 = hkey k) := by
  induction l with
  | nil => rfl
  | cons p t ih =>
    by_cases hb : BLOCKED_HEADERS.contains p.1 = true
    · have hne : ¬ (p.1 = hkey k) := by
        intro he; rw [he] at hb; rw [hb] at hk; exact Bool.true_eq_false.mp hk
      rw [List.filter_cons_of_neg (by simpa using hb),
        List.find?_cons_of_neg _ (by simp [hne]), ih]
    · rw [List.filter_cons_of_pos (by simpa using hb)]
      by_cases hq : p.1 = hkey k
      · rw [List.find?_cons_of_pos _ (by simp [hq]),
          List.find?_cons_of_pos _ (by simp [hq])]
      · rw [List.find?_cons_of_neg _ (by simp [hq]),
          List.find?_cons_of_neg _ (by simp [hq]), ih]

theorem find?_filter_blocked (l : List (String × String)) (k : String)
    (hk : BLOCKED_HEADERS.contains (hkey k) = true) :
    (l.filter (fun p => !(BLOCKED_HEADERS.contains p.1))).find?
      (fun p => p.1 = hkey k) = none := by
  rw [List.find?_eq_none]
  intro p hp
  simp only [decide_eq_true_eq]
  intro he
  have := List.of_mem_filter hp
  rw [he, hk] at this
  simp at this

/-- The header-copying fold of `createForwardHeaders`, on a list whose
keys are already lower case and duplicate-free, appends exactly the
non-blocked entries. -/
theorem forward_fold_eq (l : List (String × String))
    (acc : List (String × String))
    (hl : ∀ p ∈ l, p.1 = hkey p.1)
    (hnd : (l.map Prod.fst).Nodup)
    (hdisj : ∀ p ∈ l, ∀ q ∈ acc, q.1 ≠ p.1) :
    l.foldl (fun acc p =>
      if BLOCKED_HEADERS.contains (jsToLowerCase p.1) then acc
      else hset acc p.1 p.2) acc
    = acc ++ l.filter (fun p => !(BLOCKED_HEADERS.contains p.1)) := by
  induction l generalizing acc with
  | nil => simp
  | cons p t ih =>
    have hp1 : p.1 = hkey p.1 := hl p (List.mem_cons_self p t)
    have hlow : jsToLowerCase p.1 = p.1 := hp1.symm
    rw [List.foldl_cons]
    by_cases hb : BLOCKED_HEADERS.contains p.1 = true
    · rw [if_pos (by rw [hlow]; exact hb),
        List.filter_cons_of_neg (by simpa using hb)]
      exact ih acc (fun x hx => hl x (List.mem_cons_of_mem p hx))
        (by simpa using hnd.of_cons)
        (fun x hx q hq => hdisj x (List.mem_cons_of_mem p hx) q hq)
    · rw [if_neg (by rw [hlow]; exact hb),
        List.filter_cons_of_pos (by simpa using hb)]
      have hfresh : hset acc p.1 p.2 = acc ++ [(hkey p.1, p.2)] :=
        hset_fresh acc p.1 p.2
          (fun q hq => by
            rw [← hp1]; exact hdisj p (List.mem_cons_self p t) q hq)
      rw [hfresh, ← hp1]
      have hdisj2 : ∀ x ∈ t, ∀ q ∈ acc ++ [(p.1, p.2)], q.1 ≠ x.1 := by
        intro x hx q hq
        rcases List.mem_append.mp hq with hq | hq
        · exact hdisj x (List.mem_cons_of_mem p hx) q hq
        · rcases List.mem_singleton.mp hq with rfl
          simp only []
          intro he
          have hx1 : x.1 ∈ t.map Prod.fst := List.mem_map_of_mem Prod.fst hx
          rw [← he] at hx1
          exact (List.nodup_cons.mp hnd).1 hx1
      rw [ih (acc ++ [(p.1, p.2)])
        (fun x hx => hl x (List.mem_cons_of_mem p hx))
        (by simpa using hnd.of_cons) hdisj2]
      simp

/-! ## Claim theorems: health-check state machine -/

/-- C6 (confirmed).  Across every execution of the health check — cached
read, `simulateDown` override, successful check, failed check or network
error — `backendSince` is set to the current time exactly when the newly
computed health boolean differs from the immediately preceding cached
value of `isPrimaryHealthy`, and is left unchanged otherwise. -/
theorem backendSince_changes_iff_transition (sd : Bool) (now : Nat)
    (oc : HealthFetchOutcome) (s : HealthState) :
    ((checkPrimaryHealth sd now oc s).2).backendSince =
      if ((checkPrimaryHealth sd now oc s).2).isPrimaryHealthy
          = s.isPrimaryHealthy then s.backendSince else now :=
  checkPrimaryHealth_backendSince sd now oc s

/-- C7 counterexample.  A failed HTTP health check (the health endpoint
answers 503) performed while the primary is already marked unhealthy
leaves `consecutiveFailures` unchanged at 1, so it is false that every
failed check increments the counter. -/
theorem repeated_http_failure_no_increment_cex :
    ((checkPrimaryHealth false 30000 (.success false 503)
      { isPrimaryHealthy := false, lastChecked := 0, backendSince := 0,
        consecutiveFailures := 1 }).2).consecutiveFailures = 1 := by
  decide

/-- C7 (amended).  The complete update rule for `consecutiveFailures`:
a successful check resets it to 0; a thrown network error always
increments it; a failed HTTP-response check increments it only on the
transition from healthy to unhealthy and leaves it unchanged when the
primary was already unhealthy; a cached read never modifies it; the
`simulateDown` override sets it to 1 when the cached value was healthy
and leaves it unchanged otherwise. -/
theorem consecutiveFailures_update_rule (sd : Bool) (now : Nat)
    (oc : HealthFetchOutcome) (s : HealthState) :
    ((checkPrimaryHealth sd now oc s).2).consecutiveFailures =
      if sd then
        (if s.isPrimaryHealthy then 1 else s.consecutiveFailures)
      else if now - s.lastChecked < HEALTH_CHECK_INTERVAL then
        s.consecutiveFailures
      else
        match oc with
        | .success ok status =>
          if (ok && decide (status < 400)) then 0
          else if s.isPrimaryHealthy then s.consecutiveFailures + 1
          else s.consecutiveFailures
        | .failure _ => s.consecutiveFailures + 1 :=
  checkPrimaryHealth_cf sd now oc s

/-- C9 (confirmed).  Any sequence of health-check calls (without the
override) whose times all fall inside the 30 second cache window of the
current state makes no network call (each call is independent of the
quantified fetch outcome it carries), returns the same cached boolean
each time, and leaves the whole health state unchanged. -/
theorem cached_window_no_network_same_result (s : HealthState)
    (calls : List (Nat × HealthFetchOutcome))
    (h : ∀ c ∈ calls, c.1 - s.lastChecked < HEALTH_CHECK_INTERVAL) :
    runChecks s calls = (calls.map (fun _ => s.isPrimaryHealthy), s) := by
  induction calls with
  | nil => simp [runChecks]
  | cons c cs ih =>
    have hc := h c (List.mem_cons_self c cs)
    have hrest : ∀ x ∈ cs, x.1 - s.lastChecked < HEALTH_CHECK_INTERVAL :=
      fun x hx => h x (List.mem_cons_of_mem c hx)
    simp [runChecks, checkPrimaryHealth_cached c.1 c.2 s hc, ih hrest]

/-- Witness for C9: two cached reads 200ms and 900ms after a check at
time 100, with arbitrary distinct would-be outcomes, return `true` twice
and leave the state untouched. -/
theorem cached_window_no_network_same_result_witness :
    (∀ c ∈ [((300 : Nat), HealthFetchOutcome.failure "down"),
            ((1000 : Nat), HealthFetchOutcome.success false 503)],
        c.1 - ({ isPrimaryHealthy := true, lastChecked := 100,
                 backendSince := 0, consecutiveFailures := 0 }
          : HealthState).lastChecked < HEALTH_CHECK_INTERVAL) ∧
    runChecks
      { isPrimaryHealthy := true, lastChecked := 100, backendSince := 0,
        consecutiveFailures := 0 }
      [((300 : Nat), HealthFetchOutcome.failure "down"),
       ((1000 : Nat), HealthFetchOutcome.success false 503)] =
      ([true, true],
       { isPrimaryHealthy := true, lastChecked := 100, backendSince := 0,
         consecutiveFailures := 0 }) :=
  ⟨by decide,
   cached_window_no_network_same_result
     { isPrimaryHealthy := true, lastChecked := 100, backendSince := 0,
       consecutiveFailures := 0 }
     [((300 : Nat), HealthFetchOutcome.failure "down"),
      ((1000 : Nat), HealthFetchOutcome.success false 503)]
     (by decide)⟩

/-- C10 (confirmed).  Every state reachable from the initial state
through any sequence of health-check executions satisfies: if the
primary is marked unhealthy then `consecutiveFailures` is at least 1.
The proxy never reports the secondary backend together with a zero
consecutive-failure count. -/
theorem reachable_unhealthy_has_failures (s : HealthState)
    (h : Reachable s) :
    s.isPrimaryHealthy = false → 1 ≤ s.consecutiveFailures := by
  induction h with
  | init t => intro hf; simp [initialState] at hf
  | step sd now oc s0 _ ih =>
    intro hf
    rw [checkPrimaryHealth_isHealthy] at hf
    rw [checkPrimaryHealth_cf]
    cases sd with
    | true =>
      by_cases hh : s0.isPrimaryHealthy <;> simp_all
    | false =>
      by_cases hcache : now - s0.lastChecked < HEALTH_CHECK_INTERVAL
      · simp only [Bool.false_eq_true, if_false, if_pos hcache] at hf ⊢
        exact ih hf
      · cases oc with
        | success ok status =>
          simp only [Bool.false_eq_true, if_false, if_neg hcache] at hf ⊢
          rw [hf]
          by_cases hh : s0.isPrimaryHealthy
          · simp [hh]
          · simp only [Bool.if_false_left, Bool.false_eq_true, if_false, hh]
            exact ih (by simpa using hh)
        | failure m =>
          simp [hcache]

/-- Witness for C10: a concrete reachable unhealthy state (one
`simulateDown` step after module load) has at least one recorded
consecutive failure. -/
theorem reachable_unhealthy_has_failures_witness :
    1 ≤ ((checkPrimaryHealth true 5 (.success true 200)
      (initialState 0)).2).consecutiveFailures :=
  reachable_unhealthy_has_failures
    (checkPrimaryHealth true 5 (.success true 200) (initialState 0)).2
    (Reachable.step true 5 (.success true 200) (initialState 0)
      (Reachable.init 0))
    (by decide)

/-- C8 (confirmed).  A request whose URL carries `simulateDown=true` is
always routed to the secondary origin; the health check ignores the
would-be fetch outcome entirely (no network call); and, for any state
satisfying the reachable-state invariant of C10, the updated
`consecutiveFailures` is at least 1. -/
theorem simulateDown_routes_secondary (req : InboundRequest)
    (method : String) (env : ProxyEnv) (s : HealthState)
    (hsd : req.simulateDownInUrl = true)
    (hinv : s.isPrimaryHealthy = false → 1 ≤ s.consecutiveFailures) :
    (handleRequest req method env s).usedPrimary = false ∧
    1 ≤ ((handleRequest req method env s).state).consecutiveFailures ∧
    ∀ oc oc', checkPrimaryHealth true env.now oc s =
      checkPrimaryHealth true env.now oc' s := by
  refine ⟨?_, ?_, fun oc oc' => rfl⟩
  · rw [handleRequest_usedPrimary, hsd, checkPrimaryHealth_fst,
      checkPrimaryHealth_isHealthy]
    simp
  · rw [handleRequest_state, hsd, checkPrimaryHealth_cf]
    by_cases hh : s.isPrimaryHealthy
    · simp [hh]
    · simp only [Bool.false_eq_true, if_false, if_true, hh]
      exact hinv (by simpa using hh)

/-- Witness for C8: the `simulateDown` fixture request, sent from the
initial (healthy) state, is routed to the secondary origin with one
recorded failure, whatever the network would have answered. -/
theorem simulateDown_routes_secondary_witness :
    reqSimDown.simulateDownInUrl = true ∧
    ((handleRequest reqSimDown "GET" envAlways503
        (initialState 0)).usedPrimary = false ∧
     1 ≤ ((handleRequest reqSimDown "GET" envAlways503
        (initialState 0)).state).consecutiveFailures ∧
     ∀ oc oc', checkPrimaryHealth true envAlways503.now oc
        (initialState 0) =
       checkPrimaryHealth true envAlways503.now oc' (initialState 0)) :=
  ⟨rfl,
   simulateDown_routes_secondary reqSimDown "GET" envAlways503
     (initialState 0) rfl (by decide)⟩

/-! ## Claim theorems: retry bound and error payload -/

/-- C1 counterexample.  With an upstream answering 503 on every attempt,
the proxy makes exactly 3 attempts, but then relays the 503 response to
the caller: the returned status is 503, not the 500/502 error payload
the claim requires. -/
theorem always503_relayed_cex :
    (handleRequest reqPlainGet "GET" envAlways503
      (initialState 0)).attempts = 3 ∧
    ((handleRequest reqPlainGet "GET" envAlways503
      (initialState 0)).response).status = 503 ∧
    ((handleRequest reqPlainGet "GET" envAlways503
      (initialState 0)).response).status ≠ 500 ∧
    ((handleRequest reqPlainGet "GET" envAlways503
      (initialState 0)).response).status ≠ 502 := by
  decide

/-- C1 (amended).  For a forwarded request whose upstream returns 503 on
every attempt, the proxy issues exactly `MAX_RETRIES + 1 = 3` upstream
attempts and then relays the final 503 response to the caller (with the
CORS headers of the relay path); the fixed-shape error payload is
produced only when the last attempt throws, not on an HTTP 5xx
answer. -/
theorem always503_three_attempts_relays_503 (req : InboundRequest)
    (env : ProxyEnv) (s : HealthState) (r : UpResponse)
    (hout : ∀ n, env.attemptOutcome n = .resp r)
    (hstatus : r.status = 503) :
    (handleRequest req "GET" env s).attempts = 3 ∧
    (handleRequest req "GET" env s).response = handleResponse r ∧
    ((handleRequest req "GET" env s).response).status = 503 := by
  have hretry : makeRequestWithRetries env.attemptOutcome MAX_RETRIES
      = (.ok r, 3) := retry_always_5xx _ r hout (by omega)
  unfold handleRequest
  simp only [handleRequestBody_get, hretry]
  refine ⟨trivial, trivial, ?_⟩
  rw [handleResponse_status r, hstatus]

/-- Witness for C1: the fixture environment whose upstream always
answers 503 yields 3 attempts and a relayed 503. -/
theorem always503_three_attempts_relays_503_witness :
    (∀ n, envAlways503.attemptOutcome n = .resp resp503) ∧
    resp503.status = 503 ∧
    ((handleRequest reqPlainGet "GET" envAlways503
        (initialState 0)).attempts = 3 ∧
     (handleRequest reqPlainGet "GET" envAlways503
        (initialState 0)).response = handleResponse resp503 ∧
     ((handleRequest reqPlainGet "GET" envAlways503
        (initialState 0)).response).status = 503) :=
  ⟨fun _ => rfl, rfl,
   always503_three_attempts_relays_503 reqPlainGet envAlways503
     (initialState 0) resp503 (fun _ => rfl) rfl⟩

/-! ## Claim theorems: malformed inbound body -/

/-- C2 counterexample.  A POST whose declared JSON body fails to parse
is answered with the 500 error payload and zero upstream attempts: the
proxy does not forward the request, contradicting the claim that it
still issues the outbound request. -/
theorem malformed_json_no_forward_cex :
    (handleRequest reqBadJson "POST" envAlways503
      (initialState 0)).attempts = 0 ∧
    ((handleRequest reqBadJson "POST" envAlways503
      (initialState 0)).response).status = 500 := by
  decide

/-- C2 (amended).  For every POST/PUT/PATCH request whose declared
`application/json` body fails to parse, the parse failure is caught
during body construction and rethrown as `Invalid request body: ...`;
`handleRequest` catches it and returns the fixed-shape error payload
(HTTP 500) without issuing any outbound request (zero upstream
attempts). -/
theorem malformed_json_rejected_without_forwarding
    (req : InboundRequest) (method : String) (env : ProxyEnv)
    (s : HealthState) (e : String)
    (hm : (["POST", "PUT", "PATCH"].contains method) = true)
    (hct : strIncludes
      (jsToLowerCase ((hget req.headers "content-type").getD ""))
      "application/json" = true)
    (hjson : req.jsonBody = .error e) :
    (handleRequest req method env s).attempts = 0 ∧
    (handleRequest req method env s).response =
      errorResponse ("Invalid request body: " ++ e) method env.now
        (checkPrimaryHealth req.simulateDownInUrl env.now
          env.healthOutcome s).2 := by
  have hbody : handleRequestBody req method (createForwardHeaders req.headers)
      = .error ("Invalid request body: " ++ e) := by
    unfold handleRequestBody
    rw [if_neg (fun hn => hn hm)]
    dsimp only
    rw [if_pos hct, hjson]
  unfold handleRequest
  simp only [hbody]
  exact ⟨trivial, trivial⟩

/-- Witness for C2: the fixture POST with an unparseable JSON body is
rejected with the error payload and no forwarding. -/
theorem malformed_json_rejected_without_forwarding_witness :
    (["POST", "PUT", "PATCH"].contains "POST") = true ∧
    strIncludes
      (jsToLowerCase ((hget reqBadJson.headers "content-type").getD ""))
      "application/json" = true ∧
    reqBadJson.jsonBody = .error "Unexpected token" ∧
    ((handleRequest reqBadJson "POST" envAlways503
        (initialState 0)).attempts = 0 ∧
     (handleRequest reqBadJson "POST" envAlways503
        (initialState 0)).response =
       errorResponse ("Invalid request body: " ++ "Unexpected token")
         "POST" envAlways503.now
         (checkPrimaryHealth reqBadJson.simulateDownInUrl envAlways503.now
           envAlways503.healthOutcome (initialState 0)).2) :=
  ⟨by decide, by decide, rfl,
   malformed_json_rejected_without_forwarding reqBadJson "POST"
     envAlways503 (initialState 0) "Unexpected token" (by decide)
     (by decide) rfl⟩

/-! ## Claim theorems: outbound header construction -/

/-- C3 counterexample.  An inbound `content-length` header survives
`createForwardHeaders`: the actual block-list does not contain
`content-length` (nor `transfer-encoding`, `x-forwarded-for` or
`x-real-ip`), contradicting the block-list enumerated in the claim. -/
theorem content_length_forwarded_cex :
    hget (createForwardHeaders [("content-length", "5")]) "content-length"
      = some "5" := by
  decide

/-- C3 (amended).  For every inbound header list (with lower-case,
duplicate-free names, as the `Headers` object guarantees), the outbound
headers equal the inbound headers minus exactly the fixed block-list
`host, connection, keep-alive, proxy-authenticate, proxy-authorization,
te, trailer, upgrade`, and the outbound `User-Agent` is always
overwritten with the fixed proxy identifier; `content-length`,
`transfer-encoding`, `x-forwarded-for` and `x-real-ip` are not
blocked. -/
theorem createForwardHeaders_blocklist_spec
    (orig : List (String × String)) (k : String)
    (hlower : ∀ p ∈ orig, p.1 = hkey p.1)
    (hnodup : (orig.map Prod.fst).Nodup) :
    hget (createForwardHeaders orig) k =
      if hkey k = "user-agent" then some "NextJS-Proxy"
      else if BLOCKED_HEADERS.contains (hkey k) then none
      else hget orig k := by
  unfold createForwardHeaders
  rw [forward_fold_eq orig [] hlower hnodup (by simp), List.nil_append]
  rw [hget_hset]
  rw [show hkey "User-Agent" = "user-agent" from by decide]
  by_cases h1 : hkey k = "user-agent"
  · rw [if_pos h1, if_pos h1]
  · rw [if_neg h1, if_neg h1]
    unfold hget
    by_cases h2 : BLOCKED_HEADERS.contains (hkey k) = true
    · rw [if_pos h2, find?_filter_blocked orig k h2]
      rfl
    · rw [if_neg h2,
        find?_filter_not_blocked orig k (Bool.not_eq_true _ ▸ h2)]

/-- Witness for C3: on a concrete header list, the blocked `host` entry
is dropped while `content-length` is kept. -/
theorem createForwardHeaders_blocklist_spec_witness :
    (∀ p ∈ [("host", "h"), ("content-length", "5")],
      (p : String × String).1 = hkey p.1) ∧
    (([("host", "h"), ("content-length", "5")].map Prod.fst).Nodup) ∧
    hget (createForwardHeaders [("host", "h"), ("content-length", "5")])
        "content-length" =
      (if hkey "content-length" = "user-agent" then some "NextJS-Proxy"
       else if BLOCKED_HEADERS.contains (hkey "content-length") then none
       else hget [("host", "h"), ("content-length", "5")]
         "content-length") :=
  ⟨by decide, by decide,
   createForwardHeaders_blocklist_spec
     [("host", "h"), ("content-length", "5")] "content-length"
     (by decide) (by decide)⟩

/-! ## Claim theorems: totality of the proxy handler -/

/-- C4 (confirmed).  For every inbound request (any method, headers,
body — including an unparseable one — and any fetch outcomes, including
total upstream failure), `handleRequest` and the `GET` dispatcher
return a well-formed response: either the relayed upstream response,
the fixed-shape JSON error payload, or (for `GET /status`) the
diagnostics JSON.  No other outcome exists, so no exception escapes to
the caller. -/
theorem proxy_total_response_shapes (req : InboundRequest) (method : String)
    (env : ProxyEnv) (s : HealthState) :
    ((∃ r, (makeRequestWithRetries env.attemptOutcome MAX_RETRIES).1
          = .ok r ∧
        (handleRequest req method env s).response = handleResponse r) ∨
      (∃ msg, (handleRequest req method env s).response =
        errorResponse msg method env.now
          (checkPrimaryHealth req.simulateDownInUrl env.now
            env.healthOutcome s).2)) ∧
    ((GET req env s).response = statusResponse s env.now ∨
      (∃ r, (makeRequestWithRetries env.attemptOutcome MAX_RETRIES).1
          = .ok r ∧
        (GET req env s).response = handleResponse r) ∨
      (∃ msg, (GET req env s).response =
        errorResponse msg "GET" env.now
          (checkPrimaryHealth req.simulateDownInUrl env.now
            env.healthOutcome s).2)) := by
  refine ⟨handleRequest_shapes req method env s, ?_⟩
  unfold GET
  by_cases hp : req.path.length = 1 ∧ req.path.head? = some "status"
  · rw [if_pos hp]
    left
    rfl
  · rw [if_neg hp]
    right
    exact handleRequest_shapes req "GET" env s

/-! ## Claim theorems: CORS headers -/

/-- C5 counterexample.  The `GET /status` diagnostics response carries
no `Access-Control-Allow-Origin` header: `NextResponse.json` is called
with the body only, so the claim fails for the status endpoint. -/
theorem status_endpoint_lacks_cors_cex :
    hget ((GET reqStatusPath envAlways503
        (initialState 0)).response).headers
      "Access-Control-Allow-Origin" = none := by
  decide

/-- C5 (amended).  Every response produced by the forwarding path — a
successful relay, a relayed upstream error, or the proxy-level error
payload — includes `Access-Control-Allow-Origin`, and so does every
`GET` response except the `/status` diagnostics response, which lacks
the header. -/
theorem cors_on_forwarding_responses (req : InboundRequest)
    (method : String) (env : ProxyEnv) (s : HealthState) :
    hget ((handleRequest req method env s).response).headers
      "Access-Control-Allow-Origin" = some "*" ∧
    (¬ (req.path.length = 1 ∧ req.path.head? = some "status") →
      hget ((GET req env s).response).headers
        "Access-Control-Allow-Origin" = some "*") := by
  refine ⟨handleRequest_acao req method env s, fun hp => ?_⟩
  unfold GET
  rw [if_neg hp]
  exact handleRequest_acao req "GET" env s

/-- Witness for C5: a plain forwarded GET response carries the CORS
header. -/
theorem cors_on_forwarding_responses_witness :
    ¬ (reqPlainGet.path.length = 1 ∧
        reqPlainGet.path.head? = some "status") ∧
    hget ((GET reqPlainGet envAlways503 (initialState 0)).response).headers
      "Access-Control-Allow-Origin" = some "*" :=
  ⟨by decide,
   (cors_on_forwarding_responses reqPlainGet "GET" envAlways503
     (initialState 0)).2 (by decide)⟩

end TTV
